import Mathlib

set_option maxRecDepth 16384

/-!
Verification of the batch-inference lifecycle library in src/llmbo/llmbo.py.

The Python source is shallowly embedded: each method that a claim depends on
becomes a pure Lean function over an explicit controller state.  Stateful
methods return the updated state together with an outcome; a Python method
body that can raise returns a value of type PyResult, whose raised
constructor records the exception.  Remote services (Bedrock job queries,
S3 object existence, IAM checks, the local filesystem) are passed in as
explicit oracle functions, and the number of remote status queries a method
issues is returned as an explicit count so that idempotence and no-side-effect
claims can be stated.
-/

/-- JSON-like values, used for tool input payloads, serialized requests and
records read back from result artifacts.  Floating-point sampling parameters
are carried opaquely as already-built values and never interpreted. -/
inductive JValue : Type where
  | jnull : JValue
  | jbool : Bool → JValue
  | jint : Int → JValue
  | jstr : String → JValue
  | jlist : List JValue → JValue
  | jdict : List (String × JValue) → JValue

/-- Python exception classes that the embedded code can raise.  The
validationError constructor stands for pydantic.ValidationError, which in
Python subclasses ValueError, not TypeError. -/
inductive PyExn : Type where
  | valueError : String → PyExn
  | keyError : String → PyExn
  | typeError : String → PyExn
  | runtimeError : String → PyExn
  | indexError : String → PyExn
  | fileNotFoundError : String → PyExn
  | clientError : String → PyExn
  | validationError : String → PyExn
deriving DecidableEq

/-- Outcome of executing a Python method body: a normal return value, or a
raised exception that propagates to the caller. -/
inductive PyResult (α : Type) : Type where
  | ret : α → PyResult α
  | raised : PyExn → PyResult α
deriving DecidableEq

/-- Outcome of calling a pydantic model class on a keyword-expanded payload:
a model instance, a TypeError (payload is not a mapping, so the double-star
expansion fails), or a pydantic ValidationError (missing or ill-typed
fields). -/
inductive ConstructOutcome (α : Type) : Type where
  | ok : α → ConstructOutcome α
  | typeError : ConstructOutcome α
  | validationError : ConstructOutcome α

/-- Embeds the ToolChoice dataclass (llmbo.py line 28). -/
structure ToolChoice where
  type : String
  name : Option String := none

/-- A tool definition as built by StructuredBatchInferer, a dict with name,
description and input_schema keys (llmbo.py line 805). -/
structure Tool where
  name : String
  description : String
  input_schema : JValue

/-- Embeds the ModelInput dataclass (llmbo.py line 34).  Field order matches
the dataclass declaration order, which is also the dict order used by
to_dict.  The float-valued temperature and top_p parameters are carried as
opaque JValue payloads. -/
structure ModelInput where
  messages : List JValue
  anthropic_version : String := "bedrock-2023-05-31"
  max_tokens : Int := 2000
  system : Option String := none
  stop_sequences : Option (List String) := none
  temperature : Option JValue := none
  top_p : Option JValue := none
  top_k : Option Int := none
  tools : Option (List Tool) := none
  tool_choice : Option ToolChoice := none

/-- Serialization of a tool dict, already a plain dict in the source. -/
def Tool.to_dict (t : Tool) : JValue :=
  JValue.jdict
    [("name", JValue.jstr t.name),
     ("description", JValue.jstr t.description),
     ("input_schema", t.input_schema)]

/-- The double-underscore dict of a ToolChoice instance, as substituted into
the serialized request by ModelInput.to_dict (llmbo.py line 73).  A missing
tool name serializes as null because the dataclass attribute dict keeps
fields whose value is None. -/
def ToolChoice.to_dict (tc : ToolChoice) : JValue :=
  JValue.jdict
    [("type", JValue.jstr tc.type),
     ("name", match tc.name with
              | some n => JValue.jstr n
              | none => JValue.jnull)]

/-- Helper for to_dict: a key is present exactly when its value is not None. -/
def optEntry (k : String) (v : Option JValue) : List (String × JValue) :=
  match v with
  | some j => [(k, j)]
  | none => []

/-- Embeds ModelInput.to_dict (llmbo.py line 70): the attribute dict with
None-valued keys dropped, and tool_choice replaced by its attribute dict. -/
def ModelInput.to_dict (mi : ModelInput) : JValue :=
  JValue.jdict
    ([("messages", JValue.jlist mi.messages),
      ("anthropic_version", JValue.jstr mi.anthropic_version),
      ("max_tokens", JValue.jint mi.max_tokens)]
     ++ optEntry "system" (mi.system.map JValue.jstr)
     ++ optEntry "stop_sequences"
          (mi.stop_sequences.map (fun l => JValue.jlist (l.map JValue.jstr)))
     ++ optEntry "temperature" mi.temperature
     ++ optEntry "top_p" mi.top_p
     ++ optEntry "top_k" (mi.top_k.map JValue.jint)
     ++ optEntry "tools" (mi.tools.map (fun ts => JValue.jlist (ts.map Tool.to_dict)))
     ++ optEntry "tool_choice" (mi.tool_choice.map ToolChoice.to_dict))

/-- Embeds the Manifest dataclass (llmbo.py line 18). -/
structure Manifest where
  totalRecordCount : Int
  processedRecordCount : Int
  successRecordCount : Int
  errorRecordCount : Int
  inputTokenCount : Option Int
  outputTokenCount : Option Int

/-- A pydantic model class as seen by StructuredBatchInferer: its class
name, its docstring, its JSON schema, and the behaviour of calling the
class on a keyword-expanded payload. -/
structure PydanticModel (α : Type) where
  name : String
  doc : Option String
  json_schema : JValue
  construct : JValue → ConstructOutcome α

/-- One raw model output record, restricted to the fields that
validate_result reads: the stop reason and the list of content blocks. -/
structure ContentBlock where
  type : String
  input : JValue

/-- Raw result payload passed to validate_result. -/
structure RawResult where
  stop_reason : String
  content : List ContentBlock

/-- Embeds StructuredBatchInferer build_tool, source name with a leading
underscore (llmbo.py line 805): an empty docstring is falsy in Python, so
it also falls back to the default description. -/
def build_tool {α : Type} (m : PydanticModel α) : Tool :=
  { name := m.name,
    description :=
      match m.doc with
      | some d => if d = "" then "please fill in the schema" else d
      | none => "please fill in the schema",
    input_schema := m.json_schema }

/-- Embeds StructuredBatchInferer.validate_result (llmbo.py line 903).
The final branch mirrors the Python try block: only TypeError is caught
and turned into None; a pydantic ValidationError propagates.  Falling off
the end of the function body returns None. -/
def validate_result {α : Type} (m : PydanticModel α) (result : RawResult) :
    PyResult (Option α) :=
  if ¬ (result.stop_reason = "tool_use") then PyResult.ret none
  else if ¬ (result.content.length = 1) then PyResult.ret none
  else
    match result.content with
    | [] => PyResult.ret none
    | block :: _ =>
      if block.type = "tool_use" then
        match m.construct block.input with
        | ConstructOutcome.ok out => PyResult.ret (some out)
        | ConstructOutcome.typeError => PyResult.ret none
        | ConstructOutcome.validationError =>
            PyResult.raised (PyExn.validationError "validation error")
      else PyResult.ret none

/-- Embeds the NameAgeModel pydantic model (llmbo.py line 1018). -/
structure NameAgeModel where
  name : String
  age : Int
deriving DecidableEq

/-- Field lookup in a serialized dict. -/
def lookupField (fields : List (String × JValue)) (k : String) : Option JValue :=
  (fields.find? (fun p => p.1 = k)).map Prod.snd

/-- Construction behaviour of calling NameAgeModel on a keyword-expanded
payload, following documented pydantic v2 semantics: a payload that is not
a mapping fails the double-star expansion with TypeError; a mapping with a
missing or ill-typed required field raises pydantic.ValidationError, which
subclasses ValueError. -/
def NameAgeModel.construct : JValue → ConstructOutcome NameAgeModel
  | JValue.jdict fields =>
    match lookupField fields "name", lookupField fields "age" with
    | some (JValue.jstr n), some (JValue.jint a) =>
        ConstructOutcome.ok { name := n, age := a }
    | _, _ => ConstructOutcome.validationError
  | _ => ConstructOutcome.typeError

/-- The NameAgeModel class packaged for the structured controller. -/
def NameAgeModel.pydantic : PydanticModel NameAgeModel :=
  { name := "NameAgeModel",
    doc := none,
    json_schema :=
      JValue.jdict
        [("properties",
          JValue.jdict
            [("name", JValue.jdict [("title", JValue.jstr "Name"),
                                    ("type", JValue.jstr "string")]),
             ("age", JValue.jdict [("title", JValue.jstr "Age"),
                                   ("type", JValue.jstr "integer")])]),
         ("required", JValue.jlist [JValue.jstr "name", JValue.jstr "age"]),
         ("title", JValue.jstr "NameAgeModel"),
         ("type", JValue.jstr "object")],
    construct := NameAgeModel.construct }

/-- The terminal-status vocabulary VALID_FINISHED_STATUSES (llmbo.py line 80). -/
def VALID_FINISHED_STATUSES : List String :=
  ["Completed", "Failed", "Stopped", "Expired"]

/-- The membership test the controller applies to its cached status, which
may still be None: Python None is never an element of the string list. -/
def statusIsTerminal : Option String → Bool
  | some s => VALID_FINISHED_STATUSES.contains s
  | none => false

/-- Splitting of a character list at every occurrence of a separator,
mirroring the Python str.split method with an explicit separator. -/
def splitChars (sep : Char) : List Char → List (List Char)
  | [] => [[]]
  | x :: xs =>
    let rest := splitChars sep xs
    if x = sep then [] :: rest
    else (x :: rest.headD []) :: rest.tail

/-- Embeds the Python split call used on URIs and ARNs. -/
def pySplit (s : String) (sep : Char) : List String :=
  (splitChars sep s.data).map String.mk

/-- Embeds the Python startswith test as a character-list comparison. -/
def strStartsWith (s p : String) : Bool :=
  List.isPrefixOf p.data s.data

/-- Instance state of a BatchInferer controller (llmbo.py line 83), with
the boto3 session and clients left out: remote services are passed to each
operation as explicit oracles instead. -/
structure BatchInferer where
  model_name : String
  time_out_duration_hours : Int
  bucket_name : String
  bucket_uri : String
  job_name : String
  file_name : String
  output_file_name : Option String
  manifest_file_name : Option String
  role_arn : String
  region : String
  job_arn : Option String
  job_status : Option String
  results : Option (List JValue)
  manifest : Option Manifest
  requests : Option (List JValue)

/-- Serialization of one prepared request line, the dict with recordId and
modelInput keys built by prepare_requests (llmbo.py line 333). -/
def mkBatchRecord (p : String × ModelInput) : JValue :=
  JValue.jdict
    [("recordId", JValue.jstr p.1),
     ("modelInput", ModelInput.to_dict p.2)]

/-- Embeds BatchInferer.prepare_requests (llmbo.py line 290).  The inputs
dict is embedded as its ordered item list.  The third component is the list
of remote or filesystem actions the method performs, which is always empty:
the method only checks cardinality and builds the request list in memory.
Raising leaves the stored state unchanged, so the unchanged state is
returned alongside the exception. -/
def BatchInferer.prepare_requests (bi : BatchInferer)
    (inputs : List (String × ModelInput)) :
    BatchInferer × PyResult Unit × List String :=
  if inputs.length < 100 then
    (bi, PyResult.raised (PyExn.valueError "Minimum Batch Size is 100"), [])
  else
    ({ bi with requests := some (inputs.map mkBatchRecord) },
     PyResult.ret (), [])

/-- Embeds BatchInferer.check_complete (llmbo.py line 564).  The remote
oracle maps a job identifier to the status string the service currently
reports.  The result is the updated controller state, the method outcome
(the terminal status, or None while incomplete), and the number of remote
status queries issued by this call.  Querying with no job identifier set
fails client-side in boto3 parameter validation before any request is
sent, embedded here as a raised exception with a query count of zero. -/
def check_complete (remote : String → String) (bi : BatchInferer) :
    BatchInferer × PyResult (Option String) × Nat :=
  if statusIsTerminal bi.job_status then
    (bi, PyResult.ret bi.job_status, 0)
  else
    match bi.job_arn with
    | none => (bi, PyResult.raised (PyExn.valueError "Invalid jobIdentifier"), 0)
    | some arn =>
      let s := remote arn
      let bi' := { bi with job_status := some s }
      if VALID_FINISHED_STATUSES.contains s then
        (bi', PyResult.ret (some s), 1)
      else
        (bi', PyResult.ret none, 1)

/-- Iterates check_complete, accumulating the total number of remote
queries issued over a sequence of calls. -/
def check_complete_iter (remote : String → String) : Nat → BatchInferer → BatchInferer × Nat
  | 0, bi => (bi, 0)
  | n + 1, bi =>
    let step := check_complete remote bi
    let rest := check_complete_iter remote n step.1
    (rest.1, step.2.2 + rest.2)

/-- Embeds os.path.splitext for the plain file names this code builds: the
split is at the last dot, except that a name consisting of dots up to that
point has no extension. -/
def splitext (s : String) : String × String :=
  let cs := s.data
  let dotIdxs := (List.range cs.length).filter (fun i => cs.getD i ' ' = '.')
  match dotIdxs.getLast? with
  | none => (s, "")
  | some i =>
    if (cs.take i).all (fun c => c = '.') then (s, "")
    else (String.mk (cs.take i), String.mk (cs.drop i))

/-- Embeds the unique_id_from_arn property (llmbo.py line 180). -/
def unique_id_from_arn (bi : BatchInferer) : PyResult String :=
  match bi.job_arn with
  | none => PyResult.raised (PyExn.valueError "Job ARN not set")
  | some arn => PyResult.ret ((pySplit arn '/').getLastD arn)

/-- Embeds BatchInferer.download_results (llmbo.py line 459).  The s3exists
oracle tells whether an object with the given bucket and key exists;
download_file raises a ClientError when it does not.  When the status
reported by check_complete is not terminal the method only logs and
returns normally.  The final component counts remote status queries. -/
def download_results (remote : String → String)
    (s3exists : String → String → Bool) (bi : BatchInferer) :
    BatchInferer × PyResult Unit × Nat :=
  let step := check_complete remote bi
  let bi1 := step.1
  match step.2.1 with
  | PyResult.raised e => (bi1, PyResult.raised e, step.2.2)
  | PyResult.ret st =>
    if statusIsTerminal st then
      let parts := splitext bi1.file_name
      let bi2 := { bi1 with
                     output_file_name := some (parts.1 ++ "_out" ++ parts.2),
                     manifest_file_name := some (parts.1 ++ "_manifest" ++ parts.2) }
      match unique_id_from_arn bi2 with
      | PyResult.raised e => (bi2, PyResult.raised e, step.2.2)
      | PyResult.ret uid =>
        if s3exists bi2.bucket_name ("output/" ++ uid ++ "/" ++ bi2.file_name ++ ".out") then
          if s3exists bi2.bucket_name ("output/" ++ uid ++ "/manifest.json.out") then
            (bi2, PyResult.ret (), step.2.2)
          else (bi2, PyResult.raised (PyExn.clientError "manifest object missing"), step.2.2)
        else (bi2, PyResult.raised (PyExn.clientError "results object missing"), step.2.2)
    else
      (bi1, PyResult.ret (), step.2.2)

/-- Embeds StructuredBatchInferer add_tool_to_model_input, source name with
a leading underscore (llmbo.py line 854): assigns a fresh singleton tool
list and the forced-tool directive on the model input. -/
def add_tool_to_model_input {α : Type} (m : PydanticModel α)
    (model_input : ModelInput) : ModelInput :=
  { model_input with
      tools := some [build_tool m],
      tool_choice := some { type := "tool", name := some m.name } }

/-- Embeds StructuredBatchInferer.prepare_requests (llmbo.py line 817):
maps the tool augmentation over each input and delegates to the base
method. -/
def StructuredBatchInferer.prepare_requests {α : Type} (m : PydanticModel α)
    (bi : BatchInferer) (inputs : List (String × ModelInput)) :
    BatchInferer × PyResult Unit × List String :=
  BatchInferer.prepare_requests bi
    (inputs.map (fun p => (p.1, add_tool_to_model_input m p.2)))

/-- Remote job metadata as returned by a successful get-job query, restricted
to the keys the recovery path reads; the record models a well-formed 200
response, with a missing job embedded as the oracle returning none. -/
structure JobMetadata where
  jobName : String
  modelId : String
  s3InputUri : String
  roleArn : String
  status : String

/-- External collaborators of the controller: S3 bucket preflight checks,
the AWS profile variable, IAM role lookup, the Bedrock get-job query, the
local filesystem, and the random suffix used in the job-name fallback. -/
structure AwsEnv where
  bucketAccessible : String → Bool
  bucketRegion : String → String
  profileSet : Bool
  roleExists : String → Bool
  jobs : String → Option JobMetadata
  fileExists : String → Bool
  fileRecords : String → List JValue
  uuidSuffix : String

/-- Embeds the BatchInferer constructor (llmbo.py line 106), with the
preflight checks performed in source order: bucket accessibility, bucket
region match, AWS_PROFILE presence, role-ARN format and role existence.
The stored file_name is built from the job_name argument itself, while the
stored job_name falls back to a generated name when the argument is falsy
(the empty string). -/
def BatchInferer.init (env : AwsEnv) (model_name bucket_name region job_name
    role_arn : String) (time_out_duration_hours : Int) : PyResult BatchInferer :=
  if env.bucketAccessible bucket_name then
    if env.bucketRegion bucket_name = region then
      if env.profileSet then
        if strStartsWith role_arn "arn:aws:iam::" then
          if env.roleExists role_arn then
            PyResult.ret
              { model_name := model_name,
                time_out_duration_hours := time_out_duration_hours,
                bucket_name := bucket_name,
                bucket_uri := "s3://" ++ bucket_name,
                job_name := if job_name = ""
                            then "batch_inference_" ++ env.uuidSuffix
                            else job_name,
                file_name := job_name ++ ".jsonl",
                output_file_name := none,
                manifest_file_name := none,
                role_arn := role_arn,
                region := region,
                job_arn := none,
                job_status := none,
                results := none,
                manifest := none,
                requests := none }
          else PyResult.raised (PyExn.valueError "Role does not exist.")
        else PyResult.raised (PyExn.valueError "Invalid ARN format")
      else PyResult.raised (PyExn.keyError "AWS_PROFILE environment variable not set")
    else PyResult.raised (PyExn.valueError "Bucket region mismatch")
  else PyResult.raised (PyExn.valueError "Bucket is not accessible")

/-- Embeds BatchInferer.check_for_existing_job (llmbo.py line 682): the
ARN-shape check, then the remote lookup, with an unknown identifier raising
ValueError. -/
def check_for_existing_job (env : AwsEnv) (job_arn : String) :
    PyResult JobMetadata :=
  if strStartsWith job_arn "arn:aws:bedrock:" then
    match env.jobs job_arn with
    | some md => PyResult.ret md
    | none => PyResult.raised (PyExn.valueError "Job not found")
  else PyResult.raised (PyExn.valueError "Invalid Bedrock ARN format")

/-- The try-block body of BatchInferer.recover_details_from_job_arn
(llmbo.py lines 645 to 673), raising the exceptions each step can produce:
IndexError when the input URI has too few slash-separated parts,
FileNotFoundError when the submission artifact is absent, and whatever the
constructor raises. -/
def recover_body (env : AwsEnv) (md : JobMetadata) (job_arn region : String) :
    PyResult BatchInferer :=
  let parts := pySplit md.s3InputUri '/'
  if parts.length ≤ 2 then
    PyResult.raised (PyExn.indexError "list index out of range")
  else
    let bucket_name := parts.getD 2 ""
    let input_file := md.jobName ++ ".jsonl"
    if env.fileExists input_file then
      match BatchInferer.init env md.modelId bucket_name region md.jobName
          md.roleArn 24 with
      | PyResult.ret bi =>
        PyResult.ret
          { bi with job_arn := some job_arn,
                    requests := some (env.fileRecords input_file),
                    job_status := some md.status }
      | PyResult.raised e => PyResult.raised e
    else PyResult.raised (PyExn.fileNotFoundError "Required input file not found")

/-- Embeds BatchInferer.recover_details_from_job_arn (llmbo.py line 618).
The existing-job lookup happens before the try block, so its exceptions
propagate as raised; inside the try block, KeyError and IndexError become
ValueError with an invalid-format message, and every other exception is
wrapped in RuntimeError. -/
def BatchInferer.recover_details_from_job_arn (env : AwsEnv)
    (job_arn region : String) : PyResult BatchInferer :=
  match check_for_existing_job env job_arn with
  | PyResult.raised e => PyResult.raised e
  | PyResult.ret md =>
    match recover_body env md job_arn region with
    | PyResult.ret bi => PyResult.ret bi
    | PyResult.raised (PyExn.keyError m) =>
        PyResult.raised (PyExn.valueError ("Invalid job response format: " ++ m))
    | PyResult.raised (PyExn.indexError m) =>
        PyResult.raised (PyExn.valueError ("Invalid job response format: " ++ m))
    | PyResult.raised _ =>
        PyResult.raised (PyExn.runtimeError "Failed to recover job details")

/-- Embeds the StructuredBatchInferer override of recover_details_from_job_arn
(llmbo.py line 941): it unconditionally raises TypeError. -/
def StructuredBatchInferer.recover_details_from_job_arn (job_arn region : String) :
    PyResult BatchInferer :=
  PyResult.raised (PyExn.typeError
    "Cannot recover structured job without output_model. Use recover_structured_job instead.")

/-- A concrete controller state used by the concrete-input theorems, with
the cached status left as a parameter. -/
def mkController (st : Option String) : BatchInferer :=
  { model_name := "anthropic.claude-3-haiku-20240307-v1:0",
    time_out_duration_hours := 24,
    bucket_name := "bucket1",
    bucket_uri := "s3://bucket1",
    job_name := "job1",
    file_name := "job1.jsonl",
    output_file_name := none,
    manifest_file_name := none,
    role_arn := "arn:aws:iam::123456789012:role/BedrockBatchRole",
    region := "us-east-1",
    job_arn := some "arn:aws:bedrock:us-east-1:123456789012:model-invocation-job/abc123",
    job_status := st,
    results := none,
    manifest := none,
    requests := none }

/-- A remote service that keeps reporting a non-terminal status. -/
def remoteInProgress : String → String := fun _ => "InProgress"

/-- An S3 oracle on which every object exists. -/
def s3AllPresent : String → String → Bool := fun _ _ => true

/-- A minimal model input used in concrete batches. -/
def miDefault : ModelInput :=
  { messages := [JValue.jdict [("role", JValue.jstr "user"),
                               ("content", JValue.jstr "hello")]] }

/-- Concrete fixtures for the individual claims. -/
def biC2 : BatchInferer := mkController (some "Completed")

def biC3 : BatchInferer := mkController none

def biC4 : BatchInferer := mkController none

def arnC4 : String := "arn:aws:bedrock:us-east-1:123456789012:model-invocation-job/abc123"

def biC5 : BatchInferer := mkController none

def inputsSmall : List (String × ModelInput) := [("001", miDefault)]

def inputs100 : List (String × ModelInput) :=
  (List.range 100).map (fun i => (toString i, miDefault))

def otherTool : Tool :=
  { name := "other_tool", description := "already present", input_schema := JValue.jdict [] }

def miC6 : ModelInput := { messages := [], tools := some [otherTool] }

def arnC7 : String := "arn:aws:bedrock:us-east-1:123456789012:model-invocation-job/abc123"

def mdC7 : JobMetadata :=
  { jobName := "job1",
    modelId := "anthropic.claude-3-haiku-20240307-v1:0",
    s3InputUri := "s3://bucket1/input/job1.jsonl",
    roleArn := "arn:aws:iam::123456789012:role/BedrockBatchRole",
    status := "Completed" }

def envC7 : AwsEnv :=
  { bucketAccessible := fun _ => true,
    bucketRegion := fun _ => "us-east-1",
    profileSet := true,
    roleExists := fun _ => true,
    jobs := fun a => if a = arnC7 then some mdC7 else none,
    fileExists := fun f => f == "job1.jsonl",
    fileRecords := fun _ => [JValue.jdict [("recordId", JValue.jstr "000")]],
    uuidSuffix := "abc123" }

def rC9a : RawResult := { stop_reason := "end_turn", content := [] }

def rC9b : RawResult :=
  { stop_reason := "tool_use",
    content := [{ type := "tool_use", input := JValue.jdict [] },
                { type := "tool_use", input := JValue.jdict [] }] }

def bC10 : ContentBlock := { type := "text", input := JValue.jnull }

def rC10 : RawResult := { stop_reason := "tool_use", content := [bC10] }

/-- C1: evaluating validate_result at a payload whose fields do not match
the schema of NameAgeModel (the required age field is missing).  Pydantic
raises ValidationError there, which the except clause, written for
TypeError only, does not catch: the exception propagates instead of the
record being recorded as absent. -/
theorem C1_validation_error_propagates :
    validate_result NameAgeModel.pydantic
        { stop_reason := "tool_use",
          content := [{ type := "tool_use",
                        input := JValue.jdict [("name", JValue.jstr "John")] }] }
      = PyResult.raised (PyExn.validationError "validation error") := rfl

/-- C2: once the cached job status is terminal, check_complete returns the
cached status with zero remote queries, leaves the state unchanged, and any
number of repeated calls still issues zero remote queries in total. -/
theorem C2_terminal_status_short_circuits (remote : String → String)
    (bi : BatchInferer) (h : statusIsTerminal bi.job_status = true) (n : Nat) :
    check_complete remote bi = (bi, PyResult.ret bi.job_status, 0) ∧
    check_complete_iter remote n bi = (bi, 0) := by
  have h1 : check_complete remote bi = (bi, PyResult.ret bi.job_status, 0) := by
    simp [check_complete, h]
  refine ⟨h1, ?_⟩
  induction n with
  | zero => rfl
  | succ k ih => simp [check_complete_iter, h1, ih]

/-- C2 witness: a controller whose cached status is Completed. -/
theorem C2_witness :
    statusIsTerminal biC2.job_status = true ∧
    (check_complete remoteInProgress biC2 = (biC2, PyResult.ret biC2.job_status, 0) ∧
     check_complete_iter remoteInProgress 5 biC2 = (biC2, 0)) :=
  ⟨by decide, C2_terminal_status_short_circuits remoteInProgress biC2 (by decide) 5⟩

/-- C3: evaluating download_results on a controller with no terminal cached
status while the remote service reports InProgress: the call returns
normally with no exception, merely caching the non-terminal status, instead
of raising the error the claim and the method docstring promise. -/
theorem C3_download_returns_silently_before_terminal :
    download_results remoteInProgress s3AllPresent biC3 =
      ({ biC3 with job_status := some "InProgress" }, PyResult.ret (), 1) := rfl

/-- C4 counterexample: with no cached status and a remote service reporting
InProgress, check_complete returns the incomplete sentinel but overwrites
the cached job status field, so the field is not the same after the call
as before it. -/
theorem C4_counterexample :
    (check_complete remoteInProgress biC4).2.1 = PyResult.ret none ∧
    ¬ (check_complete remoteInProgress biC4).1.job_status = biC4.job_status := by
  exact ⟨rfl, by decide⟩

/-- C4 amended: when the cached status is not terminal and the remote
service reports a non-terminal status, check_complete returns the
incomplete sentinel (None) after one remote query, and the cached job
status is overwritten with the reported status, which is still
non-terminal. -/
theorem C4_amended_nonterminal_overwrites_cache (remote : String → String)
    (bi : BatchInferer) (arn : String)
    (h1 : statusIsTerminal bi.job_status = false)
    (h2 : bi.job_arn = some arn)
    (h3 : VALID_FINISHED_STATUSES.contains (remote arn) = false) :
    check_complete remote bi =
      ({ bi with job_status := some (remote arn) }, PyResult.ret none, 1) ∧
    statusIsTerminal (some (remote arn)) = false := by
  have h3' : remote arn ∉ VALID_FINISHED_STATUSES := by
    simpa using h3
  constructor
  · simp [check_complete, h1, h2, h3, h3']
  · simp [statusIsTerminal, h3, h3']

/-- C4 witness: the amended statement at the concrete controller. -/
theorem C4_witness :
    statusIsTerminal biC4.job_status = false ∧
    biC4.job_arn = some arnC4 ∧
    VALID_FINISHED_STATUSES.contains (remoteInProgress arnC4) = false ∧
    (check_complete remoteInProgress biC4 =
       ({ biC4 with job_status := some (remoteInProgress arnC4) }, PyResult.ret none, 1) ∧
     statusIsTerminal (some (remoteInProgress arnC4)) = false) :=
  ⟨by decide, by rfl, by decide,
   C4_amended_nonterminal_overwrites_cache remoteInProgress biC4 arnC4
     (by decide) (by rfl) (by decide)⟩

/-- C5: a mapping with fewer than 100 entries makes prepare_requests raise
(the source raises ValueError, the vocabulary the spec calls
ValidationError), perform no storage or remote action, and leave the whole
controller state, in particular the stored request batch, unchanged; a
mapping with at least 100 entries stores exactly one serialized record per
entry in mapping order. -/
theorem C5_prepare_requests_cardinality (bi : BatchInferer)
    (inputs : List (String × ModelInput)) :
    (inputs.length < 100 →
      BatchInferer.prepare_requests bi inputs =
        (bi, PyResult.raised (PyExn.valueError "Minimum Batch Size is 100"), [])) ∧
    (100 ≤ inputs.length →
      BatchInferer.prepare_requests bi inputs =
        ({ bi with requests := some (inputs.map mkBatchRecord) },
         PyResult.ret (), [])) := by
  constructor
  · intro h
    simp [BatchInferer.prepare_requests, h]
  · intro h
    simp [BatchInferer.prepare_requests, Nat.not_lt.mpr h]

/-- C5 witness: a singleton batch is rejected with the state unchanged and
no I/O action, and a batch of 100 entries is stored order-preservingly. -/
theorem C5_witness :
    (inputsSmall.length < 100 ∧
      BatchInferer.prepare_requests biC5 inputsSmall =
        (biC5, PyResult.raised (PyExn.valueError "Minimum Batch Size is 100"), [])) ∧
    (100 ≤ inputs100.length ∧
      BatchInferer.prepare_requests biC5 inputs100 =
        ({ biC5 with requests := some (inputs100.map mkBatchRecord) },
         PyResult.ret (), [])) :=
  ⟨⟨by decide, (C5_prepare_requests_cardinality biC5 inputsSmall).1 (by decide)⟩,
   ⟨by decide, (C5_prepare_requests_cardinality biC5 inputs100).2 (by decide)⟩⟩

/-- C6 counterexample: a request that already carries a tool named
other_tool.  After the adapter runs, the tool list holds exactly the
schema-derived tool and the previously present tool is gone, refuting the
appending behaviour the claim states. -/
theorem C6_counterexample :
    ((add_tool_to_model_input NameAgeModel.pydantic miC6).tools.getD []).map Tool.name
      = ["NameAgeModel"] ∧
    ¬ "other_tool" ∈
      ((add_tool_to_model_input NameAgeModel.pydantic miC6).tools.getD []).map Tool.name := by
  exact ⟨rfl, by decide⟩

/-- C6 amended: for every request, the adapter replaces the tool list with
the singleton schema-derived tool, discarding any tools already present,
and sets the forced-tool directive to name that tool specifically; the
structured batch preparation applies exactly this transformation to every
request before delegating to the base builder. -/
theorem C6_amended_tool_list_replaced {α : Type} (m : PydanticModel α)
    (mi : ModelInput) :
    (add_tool_to_model_input m mi).tools = some [build_tool m] ∧
    (add_tool_to_model_input m mi).tool_choice =
      some { type := "tool", name := some m.name } ∧
    ∀ (bi : BatchInferer) (inputs : List (String × ModelInput)),
      StructuredBatchInferer.prepare_requests m bi inputs =
        BatchInferer.prepare_requests bi
          (inputs.map (fun p => (p.1, add_tool_to_model_input m p.2))) :=
  ⟨rfl, rfl, fun _ _ => rfl⟩

/-- C7: with remote metadata available for the identifier, the submission
artifact present locally, the preflight checks passing and a non-empty
recovered job name, recovery returns a controller whose job name, model
identifier, remote identifier and status equal the recovered metadata, and
whose request batch equals the records read from the local artifact. -/
theorem C7_recovery_roundtrip (env : AwsEnv) (job_arn region : String)
    (md : JobMetadata)
    (h1 : strStartsWith job_arn "arn:aws:bedrock:" = true)
    (h2 : env.jobs job_arn = some md)
    (h3 : 2 < (pySplit md.s3InputUri '/').length)
    (h4 : env.fileExists (md.jobName ++ ".jsonl") = true)
    (h5 : env.bucketAccessible ((pySplit md.s3InputUri '/').getD 2 "") = true)
    (h6 : env.bucketRegion ((pySplit md.s3InputUri '/').getD 2 "") = region)
    (h7 : env.profileSet = true)
    (h8 : strStartsWith md.roleArn "arn:aws:iam::" = true)
    (h9 : env.roleExists md.roleArn = true)
    (h10 : ¬ md.jobName = "") :
    ∃ bi, BatchInferer.recover_details_from_job_arn env job_arn region =
            PyResult.ret bi ∧
      bi.job_name = md.jobName ∧
      bi.model_name = md.modelId ∧
      bi.job_arn = some job_arn ∧
      bi.job_status = some md.status ∧
      bi.requests = some (env.fileRecords (md.jobName ++ ".jsonl")) := by
  have hlen : ¬ (pySplit md.s3InputUri '/').length ≤ 2 := by omega
  have h5' : env.bucketAccessible ((pySplit md.s3InputUri '/')[2]?.getD "") = true := by
    simpa using h5
  have h6' : env.bucketRegion ((pySplit md.s3InputUri '/')[2]?.getD "") = region := by
    simpa using h6
  have key : BatchInferer.recover_details_from_job_arn env job_arn region =
      PyResult.ret
        { model_name := md.modelId,
          time_out_duration_hours := 24,
          bucket_name := (pySplit md.s3InputUri '/').getD 2 "",
          bucket_uri := "s3://" ++ (pySplit md.s3InputUri '/').getD 2 "",
          job_name := md.jobName,
          file_name := md.jobName ++ ".jsonl",
          output_file_name := none,
          manifest_file_name := none,
          role_arn := md.roleArn,
          region := region,
          job_arn := some job_arn,
          job_status := some md.status,
          results := none,
          manifest := none,
          requests := some (env.fileRecords (md.jobName ++ ".jsonl")) } := by
    simp [BatchInferer.recover_details_from_job_arn, check_for_existing_job, h1, h2,
          recover_body, hlen, h4, BatchInferer.init, h5, h5', h6, h6', h7, h8, h9, h10]
  exact ⟨_, key, rfl, rfl, rfl, rfl, rfl⟩

/-- C7 witness: the round-trip at a concrete environment and metadata. -/
theorem C7_witness :
    envC7.jobs arnC7 = some mdC7 ∧
    envC7.fileExists (mdC7.jobName ++ ".jsonl") = true ∧
    (∃ bi, BatchInferer.recover_details_from_job_arn envC7 arnC7 "us-east-1" =
             PyResult.ret bi ∧
      bi.job_name = mdC7.jobName ∧
      bi.model_name = mdC7.modelId ∧
      bi.job_arn = some arnC7 ∧
      bi.job_status = some mdC7.status ∧
      bi.requests = some (envC7.fileRecords (mdC7.jobName ++ ".jsonl"))) :=
  ⟨by rfl, by rfl,
   C7_recovery_roundtrip envC7 arnC7 "us-east-1" mdC7 (by decide) (by rfl)
     (by decide) (by rfl) (by rfl) (by rfl) (by rfl) (by decide) (by rfl)
     (by decide)⟩

/-- C8: the schema-less recovery entry point on the structured controller
always raises (TypeError, the vocabulary the spec calls
InvalidOperationError) and never returns a controller. -/
theorem C8_structured_recovery_without_schema_raises (job_arn region : String) :
    StructuredBatchInferer.recover_details_from_job_arn job_arn region =
      PyResult.raised (PyExn.typeError
        "Cannot recover structured job without output_model. Use recover_structured_job instead.") ∧
    ∀ bi, ¬ StructuredBatchInferer.recover_details_from_job_arn job_arn region =
            PyResult.ret bi := by
  refine ⟨rfl, ?_⟩
  intro bi h
  simp [StructuredBatchInferer.recover_details_from_job_arn] at h

/-- C9: a raw result whose stop reason is not the tool-invoked value is
recorded as absent, and a raw result with more than one content block is
recorded as absent; neither raises. -/
theorem C9_nonconforming_results_are_absent {α : Type} (m : PydanticModel α)
    (r : RawResult) :
    (¬ r.stop_reason = "tool_use" → validate_result m r = PyResult.ret none) ∧
    (1 < r.content.length → validate_result m r = PyResult.ret none) := by
  constructor
  · intro h
    simp [validate_result, h]
  · intro h
    have hne : ¬ r.content.length = 1 := by omega
    by_cases hs : r.stop_reason = "tool_use" <;> simp [validate_result, hs, hne]

/-- C9 witness: a result that stopped for end_turn, and a result with two
tool-use content blocks, are both recorded as absent. -/
theorem C9_witness :
    (¬ rC9a.stop_reason = "tool_use" ∧
      validate_result NameAgeModel.pydantic rC9a = PyResult.ret none) ∧
    (1 < rC9b.content.length ∧
      validate_result NameAgeModel.pydantic rC9b = PyResult.ret none) :=
  ⟨⟨by decide, (C9_nonconforming_results_are_absent NameAgeModel.pydantic rC9a).1 (by decide)⟩,
   ⟨by decide, (C9_nonconforming_results_are_absent NameAgeModel.pydantic rC9b).2 (by decide)⟩⟩

/-- C10: a raw result with the tool-invoked stop reason and exactly one
content block whose type is not tool_use falls through every branch of
validate_result and is recorded as absent. -/
theorem C10_single_nontool_block_is_absent {α : Type} (m : PydanticModel α)
    (r : RawResult) (b : ContentBlock)
    (h1 : r.stop_reason = "tool_use")
    (h2 : r.content = [b])
    (h3 : ¬ b.type = "tool_use") :
    validate_result m r = PyResult.ret none := by
  simp [validate_result, h1, h2, h3]

/-- C10 witness: a tool-use-stopped result with a single text block. -/
theorem C10_witness :
    rC10.stop_reason = "tool_use" ∧ rC10.content = [bC10] ∧
    ¬ bC10.type = "tool_use" ∧
    validate_result NameAgeModel.pydantic rC10 = PyResult.ret none :=
  ⟨rfl, rfl, by decide,
   C10_single_nontool_block_is_absent NameAgeModel.pydantic rC10 bC10 rfl rfl
     (by decide)⟩
